import Mathlib

/-!
Verification of the level-generation engine and progress-store operations of
the Roadmap-Generation-Software repository.

The definitions below are a shallow embedding of `src/level_generator.py`
(class `LevelGenerator`) and of the level endpoints of `src/main.py`
(`get_roadmap_levels`, `complete_level`).  Python integers are `Nat` (all the
quantities involved are non-negative), Python `//` on non-negative integers is
`Nat` division, Python dictionaries with statically known keys are structures,
the per-type task dictionaries are a tagged inductive, and the two possible
boss-only keys of a level dictionary are `Option` fields that are `none` on
non-boss levels.  Fallible operations (an endpoint that can raise) return
`Except`.
-/

namespace RoadmapGen

/-- A skill as fed to the generator: `{"name": ..., "stage": ..., "hours": ...}`
(see the sample input in `level_generator.py`). -/
structure Skill where
  name : String
  stage : String
  hours : Nat
  deriving Repr, DecidableEq

/-- The five level types of `LevelGenerator.LEVEL_PATTERN`. -/
inductive LevelType where
  | basics
  | concept
  | practice
  | challenge
  | boss
  deriving Repr, DecidableEq

/-- A level's lock state, the three string values used by the code. -/
inductive Status where
  | locked
  | unlocked
  | completed
  deriving Repr, DecidableEq

/-- A path position `{"x": ..., "y": ...}`. -/
structure Position where
  x : Nat
  y : Nat
  deriving Repr, DecidableEq

/-- A learning resource entry produced by `_generate_resources`. -/
structure Resource where
  rtype : String
  title : String
  url : String
  duration : String
  deriving Repr, DecidableEq

/-- One question of a challenge-level quiz task. -/
structure QuizQuestion where
  question : String
  options : List String
  correct_answer : String
  deriving Repr, DecidableEq

/-- The task payload, tagged by the dictionary's `"type"` key
(see `_generate_task`). -/
inductive Task where
  | mcq (question : String) (options : List String) (correct_answer : String)
      (hint : String)
  | code (question : String) (starter_code : String) (expected_output : String)
      (hint : String)
  | project (question : String) (requirements : List String)
      (submission_type : String)
  | quiz (questions : List QuizQuestion) (passing_score : Nat)
  | boss_project (question : String) (requirements : List String)
      (submission_type : String) (review_required : Bool)
  deriving Repr, DecidableEq

/-- One generated level dictionary.  `badge_earned` and `description` are the
boss-only keys, `none` whenever the code does not add them. -/
structure Level where
  level_number : Nat
  level_type : LevelType
  title : String
  status : Status
  icon : String
  position : Position
  estimated_minutes : Nat
  goal : String
  resources : List Resource
  task : Task
  xp_reward : Nat
  completed_at : Option String
  badge_earned : Option String
  description : Option String
  deriving Repr, DecidableEq

/-- A milestone dictionary from `_generate_milestones`. -/
structure Milestone where
  level : Nat
  title : String
  badge : String
  description : String
  deriving Repr, DecidableEq

/-- The `"roadmap"` block of the output document.  `progress_percentage` is a
rational: the code stores `0` at generation time and a rounded percentage on
read. -/
structure RoadmapMeta where
  career_goal : String
  learning_level : String
  total_levels : Nat
  estimated_days : Nat
  current_level : Nat
  progress_percentage : Rat
  streak_days : Nat
  deriving Repr, DecidableEq

/-- The `"stats"` block of the output document. -/
structure RoadmapStats where
  total_xp : Nat
  levels_completed : Nat
  current_streak : Nat
  longest_streak : Nat
  badges_earned : List String
  time_spent_minutes : Nat
  deriving Repr, DecidableEq

/-- The whole document returned by `convert_skills_to_levels`. -/
structure RoadmapDocument where
  roadmap : RoadmapMeta
  levels : List Level
  milestones : List Milestone
  stats : RoadmapStats
  deriving Repr, DecidableEq

/-- The fixed 5-cycle of level types, `LevelGenerator.LEVEL_PATTERN`. -/
def LEVEL_PATTERN : List LevelType :=
  [.basics, .concept, .practice, .challenge, .boss]

/-- The 4-icon set of each type, `LevelGenerator.LEVEL_ICONS`. -/
def LEVEL_ICONS : LevelType → List String
  | .basics => ["🌱", "📖", "🔰", "💡"]
  | .concept => ["🎨", "🧩", "⚙️", "🔬"]
  | .practice => ["💼", "🛠️", "⚡", "🎯"]
  | .challenge => ["🧠", "🎮", "⚔️", "🏃"]
  | .boss => ["👑", "🏆", "💎", "🦸"]

/-- Embedding of `LevelGenerator._generate_path_positions`.  The Python code
computes `y = i * (100 / total_levels) + 10` in floating point and truncates
with `int(...)`; the generator only ever calls this with `total_levels = 20`,
where `100 / 20 = 5.0` and every intermediate value is an exactly
representable small integer, so truncating Nat division `i * 100 / total + 10`
gives the same value. -/
def generate_path_positions (total_levels : Nat) : List Position :=
  (List.range total_levels).map fun i =>
    let x : Nat :=
      if i % 4 = 0 then 50
      else if i % 4 = 1 then 30
      else if i % 4 = 2 then 70
      else 50
    { x := x, y := i * 100 / total_levels + 10 }

/-- The table `self.level_positions`, precomputed in `__init__` with 20 entries. -/
def level_positions : List Position := generate_path_positions 20

/-- Python's `skill_name.replace(' ', '+')` used to build search URLs. -/
def replace_spaces (s : String) : String :=
  s.map fun c => if c = ' ' then '+' else c

/-- Embedding of `LevelGenerator._simplify_goal`. -/
def simplify_goal (skill_name : String) (level_type : LevelType) : String :=
  match level_type with
  | .basics => s!"Learn the fundamentals of {skill_name}"
  | .concept => s!"Understand how {skill_name} works"
  | .practice => s!"Build something with {skill_name}"
  | .challenge => s!"Test your {skill_name} knowledge"
  | .boss => s!"Complete a real project using {skill_name}"

/-- Embedding of `LevelGenerator._generate_resources`: 2 entries for basics/concept, 1 for
practice, 0 otherwise, then `resources[:2]`. -/
def generate_resources (skill_name : String) (level_type : LevelType) :
    List Resource :=
  let q := replace_spaces skill_name
  let resources : List Resource :=
    if level_type = .basics ∨ level_type = .concept then
      [{ rtype := "video",
         title := s!"{skill_name} Explained in 10 Minutes",
         url := s!"https://youtube.com/search?q={q}+tutorial",
         duration := "10 min" },
       { rtype := "article",
         title := s!"{skill_name} Cheatsheet",
         url := s!"https://google.com/search?q={q}+cheatsheet",
         duration := "5 min read" }]
    else if level_type = .practice then
      [{ rtype := "interactive",
         title := s!"{skill_name} Playground",
         url := s!"https://codepen.io/search/pens?q={q}",
         duration := "Hands-on" }]
    else []
  resources.take 2

/-- Embedding of `LevelGenerator._generate_task`. -/
def generate_task (skill_name : String) (level_type : LevelType) : Task :=
  match level_type with
  | .basics =>
      .mcq s!"What is the main purpose of {skill_name}?"
        ["Option A (to be filled)", "Option B (to be filled)",
         "Option C (to be filled)", "Option D (to be filled)"]
        "Option A (to be filled)" "Review the first resource"
  | .concept =>
      .code s!"Write a simple example using {skill_name}" "// Your code here"
        "Basic functionality" "Start with the simplest example"
  | .practice =>
      .project s!"Build a mini project with {skill_name}"
        [s!"Use {skill_name} correctly", "Make it functional",
         "Add basic styling"]
        "codepen_link"
  | .challenge =>
      .quiz [{ question := s!"Question about {skill_name}",
               options := ["A", "B", "C", "D"], correct_answer := "A" }] 80
  | .boss =>
      .boss_project s!"Build a complete project showcasing {skill_name}"
        ["Demonstrate mastery", "Include all sub-concepts",
         "Professional quality", "Deploy live"]
        "github_repo" true

/-- The inline XP-reward dictionary of `convert_skills_to_levels`. -/
def xp_for (level_type : LevelType) : Nat :=
  match level_type with
  | .basics => 100
  | .concept => 150
  | .practice => 200
  | .challenge => 100
  | .boss => 500

/-- The per-level title templates of `convert_skills_to_levels`. -/
def level_title (skill_name : String) (level_type : LevelType) : String :=
  match level_type with
  | .boss => s!"🏆 BOSS: {skill_name} Challenge"
  | .challenge => s!"Quick {skill_name} Quiz"
  | .practice => s!"Build with {skill_name}"
  | .concept => s!"Understanding {skill_name}"
  | .basics => s!"Intro to {skill_name}"

/-- The body of the inner loop of `convert_skills_to_levels`: build the level
dictionary numbered `level_number` for the skill named `skill_name`, where
`tpl` is the tier's `time_per_level`. -/
def build_level (level_number : Nat) (skill_name : String) (tpl : Nat) :
    Level :=
  let level_type :=
    LEVEL_PATTERN.getD ((level_number - 1) % LEVEL_PATTERN.length) .basics
  let icons := LEVEL_ICONS level_type
  let icon := icons.getD ((level_number - 1) % icons.length) ""
  let position :=
    level_positions.getD (min (level_number - 1) (level_positions.length - 1))
      { x := 0, y := 0 }
  { level_number := level_number
    level_type := level_type
    title := level_title skill_name level_type
    status := if level_number = 1 then .unlocked else .locked
    icon := icon
    position := position
    estimated_minutes := if level_type ≠ .boss then tpl else tpl * 2
    goal := simplify_goal skill_name level_type
    resources := generate_resources skill_name level_type
    task := generate_task skill_name level_type
    xp_reward := xp_for level_type
    completed_at := none
    badge_earned :=
      if level_type = .boss then some s!"{skill_name} Master 🏆" else none
    description :=
      if level_type = .boss then some "Your major project milestone!" else none }

/-- The tier's `levels_per_skill` (2 / 1 / 0.5, the `else` branch covering
Advanced and every unrecognized value); the float literal `0.5` is the
rational one half. -/
def levels_per_skill (learning_level : String) : Rat :=
  if learning_level = "Beginner" then 2
  else if learning_level = "Intermediate" then 1
  else mkRat 1 2

/-- The tier's `time_per_level` (30 / 45 / 90). -/
def time_per_level (learning_level : String) : Nat :=
  if learning_level = "Beginner" then 30
  else if learning_level = "Intermediate" then 45
  else 90

/-- The count `num_levels = max(1, int(levels_per_skill))`; Python `int` truncates toward
zero, which on these non-negative values is the floor. -/
def num_levels (learning_level : String) : Nat :=
  max 1 (levels_per_skill learning_level).floor.toNat

/-- The levels one skill contributes: `num_levels` consecutive level numbers
starting at `start` (the running `level_number` counter). -/
def skill_levels (skill_name : String) (start n tpl : Nat) : List Level :=
  (List.range n).map fun sub => build_level (start + sub) skill_name tpl

/-- The outer loop over `skills`, threading the `level_number` counter: each
skill contributes `n` levels and advances the counter by `n`. -/
def all_levels (skills : List Skill) (start n tpl : Nat) : List Level :=
  match skills with
  | [] => []
  | skill :: rest => skill_levels skill.name start n tpl ++
      all_levels rest (start + n) n tpl

/-- The `milestone_names` list of `_generate_milestones`. -/
def milestone_names (career_goal : String) : List String :=
  [s!"{career_goal} Beginner 🌱",
   s!"{career_goal} Apprentice 🎓",
   s!"{career_goal} Practitioner 💼",
   s!"{career_goal} Expert 🏆",
   s!"{career_goal} Master 👑"]

/-- The inline badge list of `_generate_milestones`. -/
def milestone_badges : List String := ["🌟", "⭐", "💫", "✨", "🌠"]

/-- Embedding of `LevelGenerator._generate_milestones`.  Python iterates
`for i in range(0, len(levels), 5)`, i.e. over `i = 5 * k` for
`k < ceil(len(levels) / 5) = (len(levels) + 4) / 5`, and appends a milestone
only while `i // 5 = k` is below the length of the 5-entry name list. -/
def generate_milestones (levels : List Level) (career_goal : String) :
    List Milestone :=
  (List.range ((levels.length + 4) / 5)).filterMap fun k =>
    let i := 5 * k
    if i / 5 < (milestone_names career_goal).length then
      some { level := i + 5,
             title := (milestone_names career_goal).getD (i / 5) "",
             badge := milestone_badges.getD (i / 5 % 5) "",
             description := s!"Reached level {i + 5}!" }
    else none

/-- Embedding of `LevelGenerator._calculate_days`: `sum // 60 + 1`. -/
def calculate_days (levels : List Level) : Nat :=
  (levels.map fun level => level.estimated_minutes).sum / 60 + 1

/-- Embedding of `LevelGenerator.convert_skills_to_levels`, the whole generation call. -/
def convert_skills_to_levels (skills : List Skill) (career_goal : String)
    (learning_level : String) : RoadmapDocument :=
  let n := num_levels learning_level
  let tpl := time_per_level learning_level
  let levels := all_levels skills 1 n tpl
  { roadmap :=
      { career_goal := career_goal
        learning_level := learning_level
        total_levels := levels.length
        estimated_days := calculate_days levels
        current_level := 1
        progress_percentage := 0
        streak_days := 0 }
    levels := levels
    milestones := generate_milestones levels career_goal
    stats :=
      { total_xp := 0
        levels_completed := 0
        current_streak := 0
        longest_streak := 0
        badges_earned := []
        time_spent_minutes := 0 } }

end RoadmapGen

namespace RoadmapGen

/-- One row of the `level_progress` table as read by `get_roadmap_levels`
(`level_number`, `completed_at`, `xp_earned`, `time_spent_minutes`); the table
has a `UNIQUE(roadmap_id, level_number)` constraint. -/
structure ProgressRecord where
  level_number : Nat
  completed_at : String
  xp_earned : Nat
  time_spent_minutes : Nat
  deriving Repr, DecidableEq

/-- Round half to even, the rounding rule of Python's builtin `round`. -/
def round_half_even (y : Rat) : Int :=
  let f := ⌊y⌋
  let frac := y - (f : Rat)
  if frac < 1 / 2 then f
  else if (1 : Rat) / 2 < frac then f + 1
  else if f % 2 = 0 then f else f + 1

/-- Python's `round(x, 2)`.  (The endpoint rounds a float; the values this
development evaluates it at are exact, so the binary-float detail does not
arise.) -/
def py_round2 (x : Rat) : Rat :=
  (round_half_even (x * 100) : Rat) / 100

/-- Lookup in the `completed_levels` dictionary that `get_roadmap_levels`
builds from the progress rows (keyed by `level_number`; the key set has no
duplicates by the table's UNIQUE constraint, so the first match is the
entry). -/
def lookup_completion (records : List ProgressRecord) (n : Nat) :
    Option ProgressRecord :=
  records.find? fun r => r.level_number = n

/-- The status-update loop body of `get_roadmap_levels`: completed when a
progress row exists for the number, unlocked when the number equals
`current_level_number = len(completed_levels) + 1`, locked otherwise. -/
def update_level_status (records : List ProgressRecord)
    (current_level_number : Nat) (lv : Level) : Level :=
  match lookup_completion records lv.level_number with
  | some r => { lv with status := .completed, completed_at := some r.completed_at }
  | none =>
      if lv.level_number = current_level_number then { lv with status := .unlocked }
      else { lv with status := .locked }

/-- The body of the `GET /roadmaps/{id}/levels` endpoint
(`main.py get_roadmap_levels`) after the roadmap and its progress rows have
been fetched: `doc` is the stored document, `records` the `level_progress`
rows of the roadmap, and `streak_recent` abstracts the wall-clock test
`(now - last_completion).days < 2` of the simplified streak update.
`progress_percentage` is computed as
`(len(completed_levels) / len(level_data["levels"])) * 100` with no guard, so
a document with an empty level list raises `ZeroDivisionError`, modelled as
`Except.error`. -/
def get_roadmap_levels (doc : RoadmapDocument)
    (records : List ProgressRecord) (streak_recent : Bool) :
    Except String RoadmapDocument :=
  let completed_count := (records.map fun r => r.level_number).dedup.length
  let total_xp := (records.map fun r => r.xp_earned).sum
  let total_time := (records.map fun r => r.time_spent_minutes).sum
  let current_level_number := completed_count + 1
  let levels := doc.levels.map (update_level_status records current_level_number)
  if doc.levels.length = 0 then
    .error "ZeroDivisionError: division by zero"
  else
    .ok { doc with
      levels := levels
      stats := { doc.stats with
        levels_completed := completed_count
        total_xp := total_xp
        time_spent_minutes := total_time
        current_streak :=
          if records.length ≠ 0 ∧ streak_recent then 1
          else doc.stats.current_streak }
      roadmap := { doc.roadmap with
        progress_percentage :=
          py_round2 ((completed_count : Rat) / (doc.levels.length : Rat) * 100)
        current_level := current_level_number } }

/-- Embedding of `next((l for l in level_data["levels"] if l["level_number"] == n), None)`
in `complete_level`. -/
def find_level (doc : RoadmapDocument) (n : Nat) : Option Level :=
  doc.levels.find? fun l => l.level_number = n

/-- The response of `POST .../levels/{n}/complete`: a 404 when the level is
not in the document, the zero-XP duplicate response, or the full completion
response. -/
inductive CompleteOutcome where
  | levelNotFound
  | duplicate (message : String) (xp_earned : Nat)
  | done (message : String) (level_number : Nat) (xp_earned : Nat)
      (next_level : Nat) (badge_earned : Option String) (level_type : LevelType)
  deriving Repr, DecidableEq

/-- The body of `main.py complete_level` after ownership is verified: returns
the response and the new `level_progress` rows of the roadmap.  `now` is the
`CURRENT_TIMESTAMP` the inserted row's `completed_at` defaults to.  A level
number already present among the rows returns the duplicate response with
`xp_earned = 0` and inserts nothing. -/
def complete_level (doc : RoadmapDocument) (records : List ProgressRecord)
    (level_number : Nat) (now : String) :
    CompleteOutcome × List ProgressRecord :=
  match find_level doc level_number with
  | none => (.levelNotFound, records)
  | some current_level =>
      if (records.find? fun r => r.level_number = level_number).isSome then
        (.duplicate "Level already completed" 0, records)
      else
        let xp_reward := current_level.xp_reward
        let badge : Option String :=
          if current_level.level_type = .boss then
            some (current_level.badge_earned.getD "Master Badge 🏆")
          else none
        (.done "🎉 Level completed!" level_number xp_reward (level_number + 1)
           badge current_level.level_type,
         records ++ [{ level_number := level_number, completed_at := now,
                       xp_earned := xp_reward,
                       time_spent_minutes := current_level.estimated_minutes }])

end RoadmapGen

namespace RoadmapGen

/-! ### Basic facts about the embedded generator -/

theorem build_level_level_number (k : Nat) (name : String) (tpl : Nat) :
    (build_level k name tpl).level_number = k := rfl

theorem build_level_status (k : Nat) (name : String) (tpl : Nat) :
    (build_level k name tpl).status
      = if k = 1 then Status.unlocked else Status.locked := rfl

theorem build_level_level_type (k : Nat) (name : String) (tpl : Nat) :
    (build_level k name tpl).level_type
      = LEVEL_PATTERN.getD ((k - 1) % 5) .basics := rfl

theorem build_level_position (k : Nat) (name : String) (tpl : Nat) :
    (build_level k name tpl).position
      = level_positions.getD (min (k - 1) 19) { x := 0, y := 0 } := rfl

theorem skill_levels_length (name : String) (start n tpl : Nat) :
    (skill_levels name start n tpl).length = n := by
  simp [skill_levels]

theorem all_levels_length (skills : List Skill) (start n tpl : Nat) :
    (all_levels skills start n tpl).length = skills.length * n := by
  induction skills generalizing start with
  | nil => simp [all_levels]
  | cons s rest ih =>
      simp [all_levels, skill_levels_length, ih, Nat.succ_mul, Nat.add_comm]

theorem all_levels_map_number (skills : List Skill) (start n tpl : Nat) :
    (all_levels skills start n tpl).map (fun lv => lv.level_number)
      = List.range' start (skills.length * n) := by
  induction skills generalizing start with
  | nil => simp [all_levels]
  | cons s rest ih =>
      have h1 : (skill_levels s.name start n tpl).map (fun lv => lv.level_number)
          = List.range' start n := by
        simp only [skill_levels, List.map_map, List.range'_eq_map_range]
        exact List.map_congr_left fun a _ => build_level_level_number ..
      calc (all_levels (s :: rest) start n tpl).map (fun lv => lv.level_number)
          = List.range' start n ++ List.range' (start + n) (rest.length * n) := by
            simp [all_levels, h1, ih]
        _ = List.range' start (rest.length * n + n) := List.range'_append_1 ..
        _ = List.range' start ((s :: rest).length * n) := by
            simp [Nat.succ_mul]

theorem mem_all_levels {lv : Level} {skills : List Skill} {start n tpl : Nat}
    (h : lv ∈ all_levels skills start n tpl) :
    ∃ name, lv = build_level lv.level_number name tpl := by
  induction skills generalizing start with
  | nil => simp [all_levels] at h
  | cons s rest ih =>
      simp only [all_levels, List.mem_append, skill_levels, List.mem_map,
        List.mem_range] at h
      rcases h with ⟨sub, hsub, hlv⟩ | h
      · exact ⟨s.name, by rw [← hlv, build_level_level_number]⟩
      · exact ih h

theorem convert_levels_eq (skills : List Skill) (cg ll : String) :
    (convert_skills_to_levels skills cg ll).levels
      = all_levels skills 1 (num_levels ll) (time_per_level ll) := rfl

theorem convert_total_eq (skills : List Skill) (cg ll : String) :
    (convert_skills_to_levels skills cg ll).roadmap.total_levels
      = (all_levels skills 1 (num_levels ll) (time_per_level ll)).length := rfl

theorem convert_milestones_eq (skills : List Skill) (cg ll : String) :
    (convert_skills_to_levels skills cg ll).milestones
      = generate_milestones
          (all_levels skills 1 (num_levels ll) (time_per_level ll)) cg := rfl

theorem num_levels_beginner : num_levels "Beginner" = 2 := by decide

theorem num_levels_intermediate : num_levels "Intermediate" = 1 := by decide

theorem num_levels_of_ne (ll : String) (h1 : ll ≠ "Beginner")
    (h2 : ll ≠ "Intermediate") : num_levels ll = 1 := by
  unfold num_levels levels_per_skill
  rw [if_neg h1, if_neg h2]
  decide

theorem time_per_level_of_ne (ll : String) (h1 : ll ≠ "Beginner")
    (h2 : ll ≠ "Intermediate") : time_per_level ll = 90 := by
  unfold time_per_level
  rw [if_neg h1, if_neg h2]

end RoadmapGen

namespace RoadmapGen

/-! ### Claim theorems: generation -/

/-- C4.  For a skill list of length `L`, generation produces `2 * L` levels for
the Beginner tier, `L` for Intermediate, and `L` for every other value of
`learningLevel` (Advanced included), which is treated exactly like the
Advanced tier bucket: the produced level list is the Advanced one. -/
theorem total_levels_per_tier (skills : List Skill) (cg ll : String) :
    (convert_skills_to_levels skills cg "Beginner").roadmap.total_levels
        = 2 * skills.length
    ∧ (convert_skills_to_levels skills cg "Intermediate").roadmap.total_levels
        = skills.length
    ∧ (ll ≠ "Beginner" → ll ≠ "Intermediate" →
        (convert_skills_to_levels skills cg ll).roadmap.total_levels
            = skills.length
        ∧ (convert_skills_to_levels skills cg ll).levels
            = (convert_skills_to_levels skills cg "Advanced").levels) := by
  have hA1 : num_levels "Advanced" = 1 := by decide
  have hA2 : time_per_level "Advanced" = 90 := by decide
  refine ⟨?_, ?_, fun h1 h2 => ⟨?_, ?_⟩⟩
  · rw [convert_total_eq, all_levels_length, num_levels_beginner, Nat.mul_comm]
  · rw [convert_total_eq, all_levels_length, num_levels_intermediate,
      Nat.mul_one]
  · rw [convert_total_eq, all_levels_length, num_levels_of_ne ll h1 h2,
      Nat.mul_one]
  · rw [convert_levels_eq, convert_levels_eq, num_levels_of_ne ll h1 h2,
      time_per_level_of_ne ll h1 h2, hA1, hA2]

/-- C7.  In every generated document, `estimated_days` is the floor of the
total estimated minutes divided by 60, plus one, and it equals 1 when the
skill input (hence the level list) is empty. -/
theorem estimated_days_formula (skills : List Skill) (cg ll : String) :
    (convert_skills_to_levels skills cg ll).roadmap.estimated_days
        = ((convert_skills_to_levels skills cg ll).levels.map
            (fun lv => lv.estimated_minutes)).sum / 60 + 1
    ∧ (convert_skills_to_levels [] cg ll).roadmap.estimated_days = 1 := by
  refine ⟨rfl, ?_⟩
  simp [convert_skills_to_levels, all_levels, calculate_days]

/-- C5.  In every generated roadmap, a level's type is the entry of the fixed
5-cycle at index `(number - 1) mod 5`, whatever skill the level came from. -/
theorem level_type_five_cycle (skills : List Skill) (cg ll : String)
    (lv : Level) (h : lv ∈ (convert_skills_to_levels skills cg ll).levels) :
    lv.level_type = LEVEL_PATTERN.getD ((lv.level_number - 1) % 5) .basics := by
  rw [convert_levels_eq] at h
  obtain ⟨name, hname⟩ := mem_all_levels h
  rw [hname, build_level_level_type, build_level_level_number]

/-- Witness for C5: the theorem applied to the first level generated from one
sample skill. -/
theorem level_type_five_cycle_witness :
    (build_level 1 "HTML Basics" 30).level_type
      = LEVEL_PATTERN.getD
          (((build_level 1 "HTML Basics" 30).level_number - 1) % 5) .basics :=
  level_type_five_cycle
    [{ name := "HTML Basics", stage := "Beginner", hours := 10 }]
    "Web Developer" "Beginner" (build_level 1 "HTML Basics" 30) (by
      have htp : time_per_level "Beginner" = 30 := rfl
      simp [convert_skills_to_levels, all_levels, skill_levels,
        num_levels_beginner, htp]
      exact ⟨0, by norm_num, rfl⟩)

/-- C6.  The precomputed position table has 20 entries; entry `i` has
`x` cycling through 50/30/70/50 by `i mod 4` and `y = i * (100 / 20) + 10`
(integer arithmetic); and every generated level's position is the table entry
at index `min(number - 1, 19)`, so positions repeat for levels 21 and
beyond. -/
theorem path_positions_table_and_clamp (skills : List Skill) (cg ll : String) :
    level_positions.length = 20
    ∧ (∀ i, i < 20 →
        level_positions.getD i { x := 0, y := 0 }
          = { x := if i % 4 = 0 then 50
                   else if i % 4 = 1 then 30
                   else if i % 4 = 2 then 70
                   else 50,
              y := i * (100 / 20) + 10 })
    ∧ (∀ lv ∈ (convert_skills_to_levels skills cg ll).levels,
        lv.position
          = level_positions.getD (min (lv.level_number - 1) 19)
              { x := 0, y := 0 }) := by
  refine ⟨rfl, by decide, fun lv h => ?_⟩
  rw [convert_levels_eq] at h
  obtain ⟨name, hname⟩ := mem_all_levels h
  rw [hname, build_level_position, build_level_level_number]

/-- Helper for C10: the level list depends only on the skills' names. -/
theorem all_levels_congr_names (s1 : List Skill) :
    ∀ (s2 : List Skill),
      s1.map (fun s => s.name) = s2.map (fun s => s.name) →
      ∀ start n tpl : Nat,
        all_levels s1 start n tpl = all_levels s2 start n tpl := by
  induction s1 with
  | nil =>
      intro s2 h start n tpl
      cases s2 with
      | nil => rfl
      | cons b rest2 => simp at h
  | cons a rest ih =>
      intro s2 h start n tpl
      cases s2 with
      | nil => simp at h
      | cons b rest2 =>
          simp only [List.map_cons, List.cons.injEq] at h
          rw [all_levels, all_levels, h.1, ih rest2 h.2]

/-- C10.  Generation reads nothing of a skill but its name: two skill lists
whose names agree pairwise produce identical documents for the same career
goal and learning level. -/
theorem generation_depends_only_on_names (s1 s2 : List Skill) (cg ll : String)
    (h : s1.map (fun s => s.name) = s2.map (fun s => s.name)) :
    convert_skills_to_levels s1 cg ll = convert_skills_to_levels s2 cg ll := by
  have key := all_levels_congr_names s1 s2 h 1 (num_levels ll)
    (time_per_level ll)
  simp only [convert_skills_to_levels]
  rw [key]

/-- Witness for C10: two one-skill lists with the same name but different
stage and hours generate the same document. -/
theorem generation_depends_only_on_names_witness :
    convert_skills_to_levels
        [{ name := "HTML Basics", stage := "Beginner", hours := 10 }]
        "Web Developer" "Beginner"
      = convert_skills_to_levels
          [{ name := "HTML Basics", stage := "Expert", hours := 99 }]
          "Web Developer" "Beginner" :=
  generation_depends_only_on_names _ _ _ _ rfl

end RoadmapGen

namespace RoadmapGen

/-- C8.  Right after generation the status field marks exactly the level
numbered 1 as unlocked (when any level exists) and every other level as
locked. -/
theorem initial_unlock_invariant (skills : List Skill) (cg ll : String) :
    (∀ lv ∈ (convert_skills_to_levels skills cg ll).levels,
        lv.status
          = if lv.level_number = 1 then Status.unlocked else Status.locked)
    ∧ ((convert_skills_to_levels skills cg ll).levels.countP
          (fun lv => lv.status == Status.unlocked))
        = if (convert_skills_to_levels skills cg ll).levels.isEmpty then 0
          else 1 := by
  have hmem : ∀ lv ∈ (convert_skills_to_levels skills cg ll).levels,
      lv.status
        = if lv.level_number = 1 then Status.unlocked else Status.locked := by
    intro lv h
    rw [convert_levels_eq] at h
    obtain ⟨name, hname⟩ := mem_all_levels h
    rw [hname, build_level_status, build_level_level_number]
  refine ⟨hmem, ?_⟩
  rw [convert_levels_eq] at hmem ⊢
  have hcount : (all_levels skills 1 (num_levels ll)
        (time_per_level ll)).countP (fun lv => lv.status == Status.unlocked)
      = (all_levels skills 1 (num_levels ll)
            (time_per_level ll)).countP (fun lv => lv.level_number == 1) := by
    apply List.countP_congr
    intro lv hlv
    have hst := hmem lv hlv
    by_cases h1 : lv.level_number = 1 <;> simp [hst, h1]
  have hmap : (all_levels skills 1 (num_levels ll)
        (time_per_level ll)).countP (fun lv => lv.level_number == 1)
      = (List.range' 1 (skills.length * num_levels ll)).countP
          (fun n => n == 1) := by
    rw [← all_levels_map_number skills 1 (num_levels ll) (time_per_level ll),
      List.countP_map]
    rfl
  rcases Nat.eq_zero_or_pos (skills.length * num_levels ll) with hm | hm
  · have hnil : all_levels skills 1 (num_levels ll) (time_per_level ll)
        = [] := by
      apply List.length_eq_zero.mp
      rw [all_levels_length]
      exact hm
    simp [hnil]
  · have hone : (List.range' 1 (skills.length * num_levels ll)).countP
        (fun n => n == 1) = 1 := by
      rw [← List.count_eq_countP]
      exact List.count_eq_one_of_mem (List.nodup_range' ..)
        (List.mem_range'_1.mpr ⟨Nat.le_refl 1, by omega⟩)
    have hne : (all_levels skills 1 (num_levels ll)
        (time_per_level ll)).isEmpty = false := by
      have hlen : (all_levels skills 1 (num_levels ll)
          (time_per_level ll)).length = skills.length * num_levels ll :=
        all_levels_length ..
      cases hcase : all_levels skills 1 (num_levels ll) (time_per_level ll) with
      | nil => rw [hcase] at hlen; simp only [List.length_nil] at hlen; omega
      | cons a l => rfl
    rw [hcount, hmap, hone, hne]
    simp

/-- Helper for C1: a filterMap over `range R` that keeps exactly the indices
below `m` is a map over `range (min R m)`. -/
theorem filterMap_range_min {α : Type} (g : Nat → α) (m R : Nat) :
    (List.range R).filterMap (fun k => if k < m then some (g k) else none)
      = (List.range (min R m)).map g := by
  induction R with
  | zero => simp
  | succ R ih =>
      rw [List.range_succ, List.filterMap_append, ih]
      by_cases h : R < m
      · have h1 : min (R + 1) m = min R m + 1 := by omega
        have h2 : min R m = R := by omega
        rw [h1, List.range_succ, List.map_append]
        simp [h, h2]
      · have h1 : min (R + 1) m = min R m := by omega
        rw [h1]
        simp [h]

/-- Helper for C1: the milestone list in closed form, a map over
`range (min (ceil(levelCount / 5)) 5)`. -/
theorem generate_milestones_eq (levels : List Level) (cg : String) :
    generate_milestones levels cg
      = (List.range (min ((levels.length + 4) / 5) 5)).map (fun k =>
          { level := 5 * k + 5,
            title := (milestone_names cg).getD k "",
            badge := milestone_badges.getD (k % 5) "",
            description := s!"Reached level {5 * k + 5}!" }) := by
  have hfun : ∀ k : Nat,
      (if 5 * k / 5 < (milestone_names cg).length then
        some ({ level := 5 * k + 5,
                title := (milestone_names cg).getD (5 * k / 5) "",
                badge := milestone_badges.getD (5 * k / 5 % 5) "",
                description := s!"Reached level {5 * k + 5}!" } : Milestone)
      else none)
      = if k < 5 then
          some ({ level := 5 * k + 5,
                  title := (milestone_names cg).getD k "",
                  badge := milestone_badges.getD (k % 5) "",
                  description := s!"Reached level {5 * k + 5}!" } : Milestone)
        else none := by
    intro k
    have h5 : 5 * k / 5 = k := Nat.mul_div_cancel_left k (by norm_num)
    rw [h5]
    rfl
  simp only [generate_milestones, hfun]
  exact filterMap_range_min ..

end RoadmapGen

namespace RoadmapGen

/-- Helper: `getD` on a map over `range`. -/
theorem getD_map_range {α : Type} (g : Nat → α) (M k : Nat) (hk : k < M)
    (d : α) : ((List.range M).map g).getD k d = g k := by
  rw [List.getD_eq_getElem?_getD, List.getElem?_map]
  simp [List.getElem?_range, hk]

/-- C1 (amended).  The milestone list has length `min(ceil(total_levels / 5),
5)` — one milestone per started block of 5 levels, capped at 5 — the k-th
(0-indexed) milestone sits at level `5 * (k + 1)` with the k-th title of the
fixed 5-name list, and no milestone exists for a level beyond 25. -/
theorem milestones_schedule_amended (skills : List Skill) (cg ll : String) :
    (convert_skills_to_levels skills cg ll).milestones.length
        = min (((convert_skills_to_levels skills cg ll).roadmap.total_levels
              + 4) / 5) 5
    ∧ (∀ k, k < (convert_skills_to_levels skills cg ll).milestones.length →
        ((convert_skills_to_levels skills cg ll).milestones.getD k
            { level := 0, title := "", badge := "", description := "" }).level
          = 5 * (k + 1)
        ∧ ((convert_skills_to_levels skills cg ll).milestones.getD k
            { level := 0, title := "", badge := "", description := "" }).title
          = (milestone_names cg).getD k "")
    ∧ (∀ m ∈ (convert_skills_to_levels skills cg ll).milestones,
        m.level ≤ 25) := by
  rw [convert_milestones_eq, convert_total_eq, generate_milestones_eq]
  refine ⟨by simp, fun k hk => ?_, fun m hm => ?_⟩
  · rw [List.length_map, List.length_range] at hk
    rw [getD_map_range _ _ _ hk]
    refine ⟨?_, rfl⟩
    show 5 * k + 5 = 5 * (k + 1)
    omega
  · simp only [List.mem_map, List.mem_range] at hm
    obtain ⟨k, hk, rfl⟩ := hm
    have h5 : k < 5 := lt_of_lt_of_le hk (min_le_right ..)
    show 5 * k + 5 ≤ 25
    omega

/-- The repository's own 3-skill sample input. -/
def skillsB3 : List Skill :=
  [{ name := "HTML Basics", stage := "Beginner", hours := 10 },
   { name := "CSS Fundamentals", stage := "Beginner", hours := 15 },
   { name := "JavaScript Basics", stage := "Beginner", hours := 20 }]

/-- Counterexample to C1 as stated: the Beginner roadmap for the 3-skill
sample has 6 levels and the generator emits 2 milestones (at levels 5 and
10), while the claimed count `min(floor(6 / 5), 5)` is 1. -/
theorem milestones_floor_count_cex :
    ((convert_skills_to_levels skillsB3 "Web Developer"
          "Beginner").milestones.length
        == min ((convert_skills_to_levels skillsB3 "Web Developer"
              "Beginner").roadmap.total_levels / 5) 5)
      = false
    ∧ (convert_skills_to_levels skillsB3 "Web Developer"
          "Beginner").milestones.length = 2
    ∧ (convert_skills_to_levels skillsB3 "Web Developer"
          "Beginner").roadmap.total_levels = 6 := by
  refine ⟨by decide, by decide, by decide⟩

end RoadmapGen

namespace RoadmapGen

/-! ### Claim theorems: progress-store operations -/

theorem update_level_status_number (records : List ProgressRecord) (c : Nat)
    (lv : Level) :
    (update_level_status records c lv).level_number = lv.level_number := by
  unfold update_level_status
  cases h : lookup_completion records lv.level_number with
  | some r => rfl
  | none => by_cases h2 : lv.level_number = c <;> simp [h2]

theorem update_level_status_status (records : List ProgressRecord) (c : Nat)
    (lv : Level) :
    (update_level_status records c lv).status
      = if lv.level_number ∈ records.map (fun r => r.level_number) then
          Status.completed
        else if lv.level_number = c then Status.unlocked
        else Status.locked := by
  unfold update_level_status
  cases h : lookup_completion records lv.level_number with
  | some r =>
      have hmem : lv.level_number ∈ records.map (fun r => r.level_number) := by
        rw [List.mem_map]
        refine ⟨r, List.mem_of_find?_eq_some h, ?_⟩
        have := List.find?_some h
        simpa using this
      rw [if_pos hmem]
  | none =>
      have hnmem : lv.level_number ∉ records.map (fun r => r.level_number) := by
        intro hmem
        rw [List.mem_map] at hmem
        obtain ⟨r, hr, hrn⟩ := hmem
        have := List.find?_eq_none.mp h r hr
        simp [hrn] at this
      rw [if_neg hnmem]
      by_cases h2 : lv.level_number = c <;> simp [h2]

/-- Characterization of a successful read: the returned level list is the
stored one with every status recomputed against the progress rows. -/
theorem get_roadmap_levels_ok (doc : RoadmapDocument)
    (records : List ProgressRecord) (b : Bool) (d : RoadmapDocument)
    (hok : get_roadmap_levels doc records b = Except.ok d) :
    d.levels = doc.levels.map
      (update_level_status records
        ((records.map fun r => r.level_number).dedup.length + 1)) := by
  simp only [get_roadmap_levels] at hok
  by_cases h0 : doc.levels.length = 0
  · rw [if_pos h0] at hok
    simp at hok
  · rw [if_neg h0] at hok
    injection hok with h
    rw [← h]

/-- C3 (amended).  The read operation re-derives statuses from the count of
completed entries, not their maximum: a level with a completion entry is
completed, the level whose number is exactly one more than the number of
completed entries (and has no entry) is unlocked, every other level is
locked. -/
theorem read_status_rule_amended (doc : RoadmapDocument)
    (records : List ProgressRecord) (b : Bool) (d : RoadmapDocument)
    (hnd : (records.map fun r => r.level_number).Nodup)
    (hok : get_roadmap_levels doc records b = Except.ok d) :
    ∀ lv ∈ d.levels,
      lv.status
        = if lv.level_number ∈ records.map (fun r => r.level_number) then
            Status.completed
          else if lv.level_number = records.length + 1 then Status.unlocked
          else Status.locked := by
  have hlv := get_roadmap_levels_ok doc records b d hok
  have hlen : (records.map fun r => r.level_number).dedup.length
      = records.length := by
    rw [List.Nodup.dedup hnd, List.length_map]
  intro lv hmem
  rw [hlv, List.mem_map] at hmem
  obtain ⟨x, hx, rfl⟩ := hmem
  rw [update_level_status_status, update_level_status_number, hlen]

/-- A 2-skill Beginner sample document with 4 levels. -/
def docB2 : RoadmapDocument :=
  convert_skills_to_levels
    [{ name := "HTML Basics", stage := "Beginner", hours := 10 },
     { name := "CSS Fundamentals", stage := "Beginner", hours := 15 }]
    "Web Developer" "Beginner"

/-- A stored completion row for level 1 of `docB2`. -/
def recordL1 : ProgressRecord :=
  { level_number := 1, completed_at := "2024-01-01T10:00:00",
    xp_earned := 100, time_spent_minutes := 30 }

/-- A stored completion row for level 3 of `docB2` (level 3 completed out of
order, levels 1 and 2 untouched). -/
def recordL3 : ProgressRecord :=
  { level_number := 3, completed_at := "2024-01-01T10:00:00",
    xp_earned := 200, time_spent_minutes := 30 }

/-- The document the read endpoint returns for `docB2` with level 1
completed. -/
def docB2_read : RoadmapDocument :=
  match get_roadmap_levels docB2 [recordL1] false with
  | .ok d => d
  | .error _ => docB2

/-- Witness for C3 (amended) at `docB2` with level 1 completed. -/
theorem read_status_rule_amended_witness :
    ([recordL1].map fun r => r.level_number).Nodup
    ∧ ∀ lv ∈ docB2_read.levels,
        lv.status
          = if lv.level_number ∈ [recordL1].map (fun r => r.level_number) then
              Status.completed
            else if lv.level_number = [recordL1].length + 1 then
              Status.unlocked
            else Status.locked :=
  ⟨by decide,
   read_status_rule_amended docB2 [recordL1] false docB2_read (by decide) rfl⟩

/-- Status rule exactly as the spec words it: a completed entry makes the
level completed, the level immediately after the highest completed number is
unlocked, every other level is locked.  Stated from the spec for comparison
with the code's count-based rule. -/
def spec_status_rule (completed : List Nat) (n : Nat) : Status :=
  if n ∈ completed then Status.completed
  else if n = completed.foldr Nat.max 0 + 1 then Status.unlocked
  else Status.locked

/-- Boolean check of C3 as stated at one input: true when every status the
read operation returns agrees with the spec's highest-completed rule. -/
def read_statuses_follow_spec (doc : RoadmapDocument)
    (records : List ProgressRecord) : Bool :=
  match get_roadmap_levels doc records false with
  | .error _ => true
  | .ok d => d.levels.all fun lv =>
      lv.status == spec_status_rule (records.map fun r => r.level_number)
        lv.level_number

/-- Counterexample to C3 as stated: with only level 3 completed in the
4-level `docB2`, the code unlocks level 2 (`count + 1`), while the claim's
highest-completed rule demands level 4 unlocked and level 2 locked. -/
theorem read_status_highest_completed_cex :
    read_statuses_follow_spec docB2 [recordL3] = false := by decide

/-- C2 (the code as it stands).  Reading a stored roadmap whose level list is
empty hits the unguarded division `len(completed_levels) / len(levels)` and
raises `ZeroDivisionError` instead of returning 0 % progress. -/
theorem empty_roadmap_read_raises_div_zero :
    get_roadmap_levels (convert_skills_to_levels [] "Web Developer" "Beginner")
        [] false
      = Except.error "ZeroDivisionError: division by zero" := rfl

/-- C9.  Re-submitting a completion for a level that already has a stored
entry answers success with zero XP and leaves the stored entries unchanged:
no insert happens and no error is raised. -/
theorem duplicate_completion_idempotent (doc : RoadmapDocument)
    (records : List ProgressRecord) (n : Nat) (now : String)
    (hlv : ∃ lv ∈ doc.levels, lv.level_number = n)
    (hrec : ∃ r ∈ records, r.level_number = n) :
    complete_level doc records n now
      = (CompleteOutcome.duplicate "Level already completed" 0, records) := by
  unfold complete_level find_level
  have h1 : (doc.levels.find? fun l => l.level_number = n).isSome := by
    rw [List.find?_isSome]
    obtain ⟨lv, hmem, hn⟩ := hlv
    exact ⟨lv, hmem, by simp [hn]⟩
  obtain ⟨l0, hl0⟩ := Option.isSome_iff_exists.mp h1
  rw [hl0]
  have h2 : (records.find? fun r => r.level_number = n).isSome = true := by
    rw [List.find?_isSome]
    obtain ⟨r, hr, hn⟩ := hrec
    exact ⟨r, hr, by simp [hn]⟩
  simp [h2]

/-- Witness for C9: completing level 1 of `docB2` again, with its completion
row already stored, returns the duplicate response and keeps the rows. -/
theorem duplicate_completion_idempotent_witness :
    (∃ lv ∈ docB2.levels, lv.level_number = 1)
    ∧ (∃ r ∈ [recordL1], r.level_number = 1)
    ∧ complete_level docB2 [recordL1] 1 "2024-01-02T09:00:00"
        = (CompleteOutcome.duplicate "Level already completed" 0,
           [recordL1]) :=
  ⟨by decide, by decide,
   duplicate_completion_idempotent docB2 [recordL1] 1 "2024-01-02T09:00:00"
     (by decide) (by decide)⟩

end RoadmapGen
